import Mathlib

/-!
A shallow embedding of the event-dispatch and send-path core of
`src/src/Bot/Bot.ts` (the `Bot` factory and the `BotImpl` facade).

Conventions used throughout:
* TypeScript `undefined`-able values become `Option`.
* A JavaScript `throw` inside a function, or a rejected promise returned
  by an `async` function, becomes the `Except.error` branch.
* The Node.js `EventEmitter` from the `events` module is modelled by its
  documented semantics: listeners are kept in registration order keyed by
  the event name, `emit` delivers the payload to every listener registered
  under that name in order, and emitting under the name `error` with no
  registered listener throws the payload instead of delivering it.
* Calls into the external gateway adapter (the `service` built by
  `MiraiServiceFactory.create`) are recorded explicitly, so that theorems
  can state that a given path performs no adapter call.
-/

/-- Connection parameters accepted by `Bot.create` (Bot.ts lines 18-26),
with `syncId` already defaulted to `-1` as in the destructuring pattern. -/
structure ConnectionParams where
  url : String
  verifyKey : String
  qq : Int
  syncId : Int
  deriving DecidableEq, Repr

/-- The error taxonomy of the spec, classifying the two `throw new Error(...)`
sites of Bot.ts: the unsupported-version throw in `Bot.create` (line 27) and
the missing-target throw in `BotImpl.sendMessage` (line 98). -/
inductive BotError where
  | configurationError (msg : String)
  | invalidArgumentError (msg : String)
  deriving DecidableEq, Repr

/-- JavaScript string coercion of an optional string: `undefined` prints and
keys as the string `undefined` (template literals and property keys). -/
def jsString : Option String → String
  | some s => s
  | none => "undefined"

/-- One message segment of a `MessageChain`; Bot.ts line 95 builds the
segment `\x7b type: 'Plain', text \x7d`, other segment shapes pass through. -/
structure MessageSegment where
  type : String
  text : Option String
  deriving DecidableEq, Repr

/-- A structured message: an ordered list of segments. -/
abbrev MessageChain := List MessageSegment

/-- Bot.ts line 95: a string message is promoted to a one-segment chain,
a structured chain passes through unchanged. -/
def normalizeMessage : String ⊕ MessageChain → MessageChain
  | Sum.inl s => [{ type := "Plain", text := some s }]
  | Sum.inr mc => mc

/-- The adapter response of a send call: `\x7b messageId?: number \x7d`. -/
structure SendResult where
  messageId : Option Int
  deriving DecidableEq, Repr

/-- The adapter send surface consumed by `BotImpl.sendMessage`
(`service.sendFriendMessage` / `service.sendGroupMessage`), modelled as
total response functions of the external service. -/
structure ServiceModel where
  sendFriendMessage : Int → MessageChain → SendResult
  sendGroupMessage : Int → MessageChain → SendResult

/-- Observed outcome of one `sendMessage` call: the settled value of the
returned promise plus the adapter send calls that were performed. -/
structure SendOutcome where
  result : Except BotError (Option Int)
  friendCalls : List (Int × MessageChain)
  groupCalls : List (Int × MessageChain)

/-- `BotImpl.sendMessage` (Bot.ts lines 92-99): normalize the message, then
route on `qq` first, then `group`, else reject with the missing-target
error. Each taken send path records exactly one adapter call. -/
def BotImpl.sendMessage (svc : ServiceModel) (qq group : Option Int)
    (message : String ⊕ MessageChain) : SendOutcome :=
  let messageChain : MessageChain := normalizeMessage message
  match qq with
  | some q =>
    { result := Except.ok (svc.sendFriendMessage q messageChain).messageId
      friendCalls := [(q, messageChain)]
      groupCalls := [] }
  | none =>
    match group with
    | some g =>
      { result := Except.ok (svc.sendGroupMessage g messageChain).messageId
        friendCalls := []
        groupCalls := [(g, messageChain)] }
    | none =>
      { result := Except.error (BotError.invalidArgumentError ("qq or group must be specified"))
        friendCalls := []
        groupCalls := [] }

/-- The supported protocol versions of the `Bot` factory
(Bot.ts line 17: `private static versions = new Set(['2.6.0'])`). -/
def supportedVersions : List String := ["2.6.0"]

/-- The default protocol version applied when `opts.version` is omitted
(Bot.ts lines 27 and 45). -/
def defaultVersion : String := "2.6.0"

/-- A middleware stage of a processing chain.

Modelled from the spec: the `ProcessChain` implementation lives in
`../Middleware`, which is not among the provided sources. Per the spec a
stage maps the current payload to either a possibly transformed payload to
pass onward or a terminal signal stopping the chain for this occurrence. -/
inductive StageResult (T : Type) where
  | next (value : T)
  | terminate

/-- Modelled from the spec: a stage is a function from the current payload
to a `StageResult`. -/
def Stage (T : Type) := T → StageResult T

/-- Modelled from the spec: a processing chain is an ordered, mutable list
of stages; `pipe` appends at the end. -/
structure ProcessChain (T : Type) where
  stages : List (Stage T)

/-- Modelled from the spec: `pipe(stage)` appends one stage to the end of
the chain (builder pattern). -/
def ProcessChain.pipe (c : ProcessChain T) (s : Stage T) : ProcessChain T :=
  { stages := c.stages ++ [s] }

/-- Modelled from the spec: `run(event)` instrumented with a trace. The
returned list holds, in execution order, the payload handed to each stage
that actually ran: stage 0 receives the event, each later stage receives
its predecessor's output, and the run stops early exactly when a stage
signals termination. -/
def runTrace : List (Stage T) → T → List T
  | [], _ => []
  | s :: rest, t =>
    t :: (match s t with
          | StageResult.next t2 => runTrace rest t2
          | StageResult.terminate => [])

/-- An inbound envelope's `data` field: the event-type tag (absent on a
malformed envelope) plus the rest of the payload record. -/
structure EnvData (α : Type) where
  type : Option String
  rest : α
  deriving DecidableEq, Repr

/-- A generic inbound envelope pushed by the adapter (Bot.ts lines 60-73):
`\x7b syncId, data \x7d`, where either level may be absent at runtime. -/
structure Envelope (α : Type) where
  syncId : Int
  data : Option (EnvData α)
  deriving DecidableEq, Repr

/-- A value carried on the internal emitter: either the `data` member of an
inbound envelope (Bot.ts line 73 emits `data?.data`) or an adapter error
(Bot.ts line 74 emits the error value). -/
inductive Emitted (α : Type) where
  | envData (d : Option (EnvData α))
  | err (e : α)
  deriving DecidableEq, Repr

/-- A listener registered on the internal emitter: the bound `run` of a
processing chain (registered by `BotImpl.on`) or an error handler
(registered by `BotImpl.onError`), identified by index. -/
inductive Listener where
  | chainRun (chainId : Nat)
  | handler (handlerId : Nat)
  deriving DecidableEq, Repr

/-- The internal Node.js `EventEmitter` of `BotImpl`: its ordered listener
registrations, keyed by event name. -/
structure EventEmitter where
  listeners : List (String × Listener)
  deriving DecidableEq, Repr

/-- Node.js `EventEmitter.prototype.emit`, per its documented semantics:
deliver the value to every listener registered under `key`, in
registration order; emitting under the name `error` with no registered
listener throws the emitted value instead of delivering it. -/
def EventEmitter.emit (em : EventEmitter) (key : String) (v : Emitted α) :
    Except (Emitted α) (List (Listener × Emitted α)) :=
  let ls := em.listeners.filter (fun p => p.1 == key)
  if key == "error" && ls.isEmpty then Except.error v
  else Except.ok (ls.map (fun p => (p.2, v)))

/-- The facade state of one `BotImpl` instance: declared version, internal
emitter, and the chains created so far (a chain's id is its index). -/
structure BotState (α : Type) where
  version : String
  emitter : EventEmitter
  chains : List (ProcessChain (Emitted α))

/-- A freshly constructed `BotImpl` (Bot.ts lines 45-48): the declared
version is stored and the internal emitter starts with no listeners;
`startListen` subscribes to the service streams, not to this emitter. -/
def mkBotImpl (version : String) : BotState α :=
  { version := version, emitter := { listeners := [] }, chains := [] }

/-- `BotImpl.on` (Bot.ts lines 82-90): create a fresh chain, seed it with
the listener exactly when one is supplied, register the chain's bound
`run` on the emitter under the event name, and hand the chain back (here:
its id, which indexes the updated state's chain list). -/
def BotImpl.on (st : BotState α) (event : String)
    (listener : Option (Stage (Emitted α))) : BotState α × Nat :=
  let chain : ProcessChain (Emitted α) := { stages := [] }
  let chain := match listener with
    | some f => chain.pipe f
    | none => chain
  let cid := st.chains.length
  ({ st with
      chains := st.chains ++ [chain]
      emitter := { listeners := st.emitter.listeners ++ [(event, Listener.chainRun cid)] } },
   cid)

/-- `BotImpl.onError` (Bot.ts lines 77-80): register a handler under the
`error` event name and return the facade. -/
def BotImpl.onError (st : BotState α) (handlerId : Nat) : BotState α :=
  { st with
      emitter := { listeners := st.emitter.listeners ++ [("error", Listener.handler handlerId)] } }

/-- The listener `startListen` registers on the service's `miraiEvent`
stream (Bot.ts line 73): re-emit `data?.data` on the internal emitter
under the key `data?.data?.type`; an absent tag keys, by JavaScript
property-name coercion, under the string `undefined`. -/
def dispatchMiraiEvent (st : BotState α) (data : Option (Envelope α)) :
    Except (Emitted α) (List (Listener × Emitted α)) :=
  EventEmitter.emit st.emitter
    (jsString ((data.bind (fun e => e.data)).bind (fun d => d.type)))
    (Emitted.envData (data.bind (fun e => e.data)))

/-- The listener `startListen` registers on the service's `error` stream
(Bot.ts line 74): re-emit the error on the internal emitter under the
`error` event name. -/
def dispatchServiceError (st : BotState α) (e : α) :
    Except (Emitted α) (List (Listener × Emitted α)) :=
  EventEmitter.emit st.emitter "error" (Emitted.err e)

/-- Observed outcome of one `Bot.create` call: the settled result (a facade
or a thrown error) plus every adapter construction performed, i.e. every
call of `MiraiServiceFactory.create` with its parameters and the version
the `BotImpl` constructor defaulted to. -/
structure CreateOutcome (α : Type) where
  result : Except BotError (BotState α)
  adapterConstructions : List (ConnectionParams × String)

/-- `Bot.create` (Bot.ts lines 18-29): validate `version ?? '2.6.0'`
against the supported set; on failure throw the unsupported-version error
before anything is constructed, on success run the `BotImpl` constructor,
which first builds the service through the adapter factory. -/
def Bot.create (p : ConnectionParams) (version : Option String) : CreateOutcome α :=
  if version.getD defaultVersion ∈ supportedVersions then
    { result := Except.ok (mkBotImpl (version.getD defaultVersion))
      adapterConstructions := [(p, version.getD defaultVersion)] }
  else
    { result := Except.error (BotError.configurationError
        ("Unsupported version: " ++ jsString version))
      adapterConstructions := [] }

/-- JavaScript `String.prototype.split` with the one-character separator
used on Bot.ts lines 50-51, on the list of characters. -/
def splitDotsAux : List Char → List Char → List String
  | [], acc => [String.mk acc.reverse]
  | c :: cs, acc =>
    if c = '.' then String.mk acc.reverse :: splitDotsAux cs []
    else splitDotsAux cs (c :: acc)

/-- `version.split('.')` as used by the construction-time check. -/
def splitDots (s : String) : List String :=
  splitDotsAux s.toList []

/-- A log line of the construction-time version check: `console.warn` on a
detected mismatch, `console.error` when the check itself failed. -/
inductive LogEntry where
  | warn (msg : String)
  | logError (msg : String)
  deriving DecidableEq, Repr

/-- The warning emitted on Bot.ts line 53. -/
def mismatchWarning (declared reported : String) : LogEntry :=
  LogEntry.warn ("[WARN] mirai-api-http version mismatch: " ++ declared
    ++ "(mirai-js) vs " ++ reported ++ "(mirai-api-http)")

/-- The construction-time version check (Bot.ts lines 49-57): on a
fulfilled `getAbout`, compare the first two dot-components of the reported
version against `currVersions` (the first two of the declared version; a
component read past its end is JavaScript `undefined`, which never equals
a string) and warn on any difference; on a rejected `getAbout`, log the
failure. Either way the only effect is the returned log lines. -/
def versionCheckLogs (declared : String) (about : Except String String) : List LogEntry :=
  match about with
  | Except.ok reported =>
    let currVersions := (splitDots declared).take 2
    if ((splitDots reported).take 2).enum.any
        (fun p => currVersions.get? p.1 != some p.2) then
      [mismatchWarning declared reported]
    else []
  | Except.error err =>
    [LogEntry.logError ("[ERROR] mirai-api-http version check failed: " ++ err)]

/-- Outcome of running the `BotImpl` constructor together with its
fire-and-forget version check: the facade is always produced; the check
contributes log lines only. -/
structure ConstructOutcome (α : Type) where
  facade : BotState α
  logs : List LogEntry

/-- The `BotImpl` constructor (Bot.ts lines 45-58) given the eventual
outcome of the `getAbout` query: construction itself always completes with
the fresh facade; the detached version check only ever logs. -/
def constructBotImpl (version : String) (about : Except String String) :
    ConstructOutcome α :=
  { facade := mkBotImpl version, logs := versionCheckLogs version about }

/-- The spec's notion of two version strings differing at major.minor
granularity: their first two dot-components differ. -/
def majorMinorDiffers (a b : String) : Bool :=
  decide (((splitDots a).take 2) ≠ ((splitDots b).take 2))

/-- A list extended with one element is never empty (helper). -/
theorem isEmpty_append_singleton {β : Type} (xs : List β) (y : β) :
    (xs ++ [y]).isEmpty = false := by
  cases xs <;> rfl

/-- Claim C1: `create` with a supported version tag succeeds with a facade
after exactly one adapter construction; with an unsupported tag it fails
with the unsupported-version `ConfigurationError` and the adapter factory
is never invoked, so no adapter and no partial facade exist. -/
theorem create_version_gate {α : Type} (p : ConnectionParams) (version : Option String) :
    (version.getD defaultVersion ∈ supportedVersions →
      (Bot.create p version : CreateOutcome α).result
          = Except.ok (mkBotImpl (version.getD defaultVersion))
        ∧ (Bot.create p version : CreateOutcome α).adapterConstructions
          = [(p, version.getD defaultVersion)])
  ∧ (version.getD defaultVersion ∉ supportedVersions →
      (Bot.create p version : CreateOutcome α).result
          = Except.error (BotError.configurationError
              ("Unsupported version: " ++ jsString version))
        ∧ (Bot.create p version : CreateOutcome α).adapterConstructions = []) := by
  constructor
  · intro h
    simp [Bot.create, h]
  · intro h
    simp [Bot.create, h]

/-- A concrete set of connection parameters used by witnesses. -/
def cdemo : ConnectionParams := { url := "u", verifyKey := "k", qq := 1, syncId := -1 }

/-- Witness for claim C1: the supported tag `2.6.0` yields a facade with
one adapter construction; the unsupported tag `9.9.9` yields the
configuration error with no adapter construction. -/
theorem create_version_gate_witness :
    ((Bot.create cdemo (some ("2.6.0")) : CreateOutcome Nat).result
        = Except.ok (mkBotImpl ("2.6.0"))
      ∧ (Bot.create cdemo (some ("2.6.0")) : CreateOutcome Nat).adapterConstructions
        = [(cdemo, "2.6.0")])
  ∧ ((Bot.create cdemo (some ("9.9.9")) : CreateOutcome Nat).result
        = Except.error (BotError.configurationError
            ("Unsupported version: " ++ jsString (some ("9.9.9"))))
      ∧ (Bot.create cdemo (some ("9.9.9")) : CreateOutcome Nat).adapterConstructions = []) :=
  ⟨(create_version_gate cdemo (some ("2.6.0"))).1 (by decide),
   (create_version_gate cdemo (some ("9.9.9"))).2 (by decide)⟩

/-- Claim C2: a `sendMessage` call with neither `qq` nor `group` settles as
a rejection with the `InvalidArgumentError`, and neither adapter send
operation is invoked. -/
theorem sendMessage_missing_target (svc : ServiceModel) (message : String ⊕ MessageChain) :
    BotImpl.sendMessage svc none none message
      = { result := Except.error (BotError.invalidArgumentError ("qq or group must be specified")),
          friendCalls := [], groupCalls := [] } := rfl

/-- Claim C3: a `sendMessage` call with an individual target and a string
message promotes the string to the one-segment `Plain` chain, hands
exactly that chain to the individual send operation, and resolves to the
adapter-reported `messageId` (an `Option`, so an absent id passes through
as `none`). -/
theorem sendMessage_string_to_friend (svc : ServiceModel) (q : Int) (g : Option Int) (s : String) :
    BotImpl.sendMessage svc (some q) g (Sum.inl s)
      = { result := Except.ok (svc.sendFriendMessage q [{ type := "Plain", text := some s }]).messageId,
          friendCalls := [(q, [{ type := "Plain", text := some s }])],
          groupCalls := [] } := rfl

/-- Claim C9: a `sendMessage` call with both targets present routes to the
individual (friend) send path, never invokes the group path, and resolves
to the friend send's `messageId`. -/
theorem sendMessage_prefers_friend (svc : ServiceModel) (q g : Int)
    (message : String ⊕ MessageChain) :
    BotImpl.sendMessage svc (some q) (some g) message
      = { result := Except.ok (svc.sendFriendMessage q (normalizeMessage message)).messageId,
          friendCalls := [(q, normalizeMessage message)],
          groupCalls := [] } := rfl

/-- Claim C5 counterexample: on a freshly constructed facade, where no
handler has been registered through `onError`, relaying an adapter error
is not swallowed: the internal emitter's unhandled-`error` rule throws the
value out of the relay listener instead of completing normally. -/
theorem service_error_unhandled_cex :
    (dispatchServiceError (mkBotImpl ("2.6.0") : BotState Nat) 7).isOk = false
  ∧ dispatchServiceError (mkBotImpl ("2.6.0") : BotState Nat) 7
      = Except.error (Emitted.err 7) := ⟨rfl, rfl⟩

/-- Claim C5 amended: while no handler is registered under the `error`
event name, a relayed adapter error is thrown by the internal emitter
(Node's unhandled-`error` semantics) rather than swallowed. -/
theorem service_error_unhandled_throws {α : Type} (st : BotState α) (e : α)
    (h : st.emitter.listeners.filter (fun p => p.1 == "error") = []) :
    dispatchServiceError st e = Except.error (Emitted.err e) := by
  unfold dispatchServiceError EventEmitter.emit
  simp [h]

/-- Witness for the amended claim C5 on a freshly constructed facade. -/
theorem service_error_unhandled_throws_witness :
    dispatchServiceError (mkBotImpl ("2.6.0") : BotState Nat) 5
      = Except.error (Emitted.err 5) :=
  service_error_unhandled_throws (mkBotImpl ("2.6.0")) 5 rfl

/-- Claim C4: an inbound envelope without a type tag keys, by JavaScript
property-name coercion, under the string `undefined`; since no listener is
registered under that name (registered names are typed event names or
`error`), the envelope is delivered to no processing chain, nothing
reaches the error channel, and dispatch completes normally. -/
theorem dispatch_drops_untagged {α : Type} (st : BotState α) (data : Option (Envelope α))
    (htag : (data.bind (fun e => e.data)).bind (fun d => d.type) = none)
    (hreg : ∀ p ∈ st.emitter.listeners, p.1 ≠ "undefined") :
    dispatchMiraiEvent st data = Except.ok [] := by
  unfold dispatchMiraiEvent EventEmitter.emit
  rw [htag]
  have hfil : st.emitter.listeners.filter (fun p => p.1 == jsString none) = [] := by
    rw [List.filter_eq_nil_iff]
    intro a ha
    simpa [jsString] using hreg a ha
  simp [hfil, jsString]
  intro a b hab
  exact hreg (a, b) hab

/-- A facade with one chain registered for `FriendMessage`, used by the
witness for claim C4. -/
def stC4 : BotState Nat := (BotImpl.on (mkBotImpl ("2.6.0")) ("FriendMessage") none).1

/-- Witness for claim C4: a facade with a registered chain silently drops
an envelope whose `data` member is absent. -/
theorem dispatch_drops_untagged_witness :
    dispatchMiraiEvent stC4 (some { syncId := -1, data := none }) = Except.ok [] :=
  dispatch_drops_untagged stC4 (some { syncId := -1, data := none }) rfl (by decide)

/-- Claim C10: an inbound envelope whose type tag is the literal `error` is
re-emitted under the `error` event name through the very emit call a
transport error uses; whenever dispatch completes, every handler
registered through `onError` receives the envelope's `data`, and the
sequence of receiving listeners is exactly the one a transport error
reaches. -/
theorem error_tagged_envelope_routed {α : Type} (st : BotState α) (sid : Int)
    (d : EnvData α) (h : d.type = some ("error")) (e : α) :
    dispatchMiraiEvent st (some { syncId := sid, data := some d })
        = EventEmitter.emit st.emitter "error" (Emitted.envData (some d))
  ∧ (∀ hid, ("error", Listener.handler hid) ∈ st.emitter.listeners →
      ∀ ds, dispatchMiraiEvent st (some { syncId := sid, data := some d }) = Except.ok ds →
        (Listener.handler hid, Emitted.envData (some d)) ∈ ds)
  ∧ (∀ ds es, dispatchMiraiEvent st (some { syncId := sid, data := some d }) = Except.ok ds →
      dispatchServiceError st e = Except.ok es →
      ds.map Prod.fst = es.map Prod.fst) := by
  have hkey : dispatchMiraiEvent st (some { syncId := sid, data := some d })
      = EventEmitter.emit st.emitter "error" (Emitted.envData (some d)) := by
    unfold dispatchMiraiEvent
    simp [h, jsString]
  refine ⟨hkey, ?_, ?_⟩
  · intro hid hmem ds hds
    rw [hkey] at hds
    unfold EventEmitter.emit at hds
    by_cases hemp : (List.filter (fun p => p.1 == "error") st.emitter.listeners).isEmpty = true
    · simp [hemp] at hds
    · rw [Bool.not_eq_true] at hemp
      simp [hemp] at hds
      have hmemf : ("error", Listener.handler hid)
          ∈ List.filter (fun p => p.1 == "error") st.emitter.listeners :=
        List.mem_filter.mpr ⟨hmem, rfl⟩
      rw [← hds]
      exact List.mem_map_of_mem (fun p => (p.2, Emitted.envData (some d))) hmemf
  · intro ds es hds hes
    rw [hkey] at hds
    unfold EventEmitter.emit at hds
    unfold dispatchServiceError EventEmitter.emit at hes
    by_cases hemp : (List.filter (fun p => p.1 == "error") st.emitter.listeners).isEmpty = true
    · simp [hemp] at hds
    · rw [Bool.not_eq_true] at hemp
      simp [hemp] at hds hes
      rw [← hds, ← hes]
      simp [List.map_map, Function.comp]

/-- A facade with one error handler registered, used by the witness for
claim C10. -/
def stC10 : BotState Nat := BotImpl.onError (mkBotImpl ("2.6.0")) 0

/-- Witness for claim C10: on a facade with one registered error handler,
an envelope tagged `error` goes through the `error`-channel emit call. -/
theorem error_tagged_envelope_routed_witness :
    dispatchMiraiEvent stC10 (some { syncId := -1, data := some { type := some ("error"), rest := 3 } })
      = EventEmitter.emit stC10.emitter "error"
          (Emitted.envData (some { type := some ("error"), rest := 3 })) :=
  (error_tagged_envelope_routed stC10 (-1) { type := some ("error"), rest := 3 } rfl 0).1

/-- Claim C7: `on` appends one fresh chain holding exactly the supplied
initial stage (none when omitted), returns that chain (its id indexes the
extended registry), registers its bound `run` under the event name, and a
subsequent emit of that event name delivers the payload to every
previously registered listener for the name and to the new chain. -/
theorem on_fresh_chain_fanout {α : Type} (st : BotState α) (event : String)
    (listener : Option (Stage (Emitted α))) :
    (BotImpl.on st event listener).1.chains
        = st.chains ++ [{ stages := listener.toList }]
  ∧ (BotImpl.on st event listener).2 = st.chains.length
  ∧ (BotImpl.on st event listener).1.emitter.listeners
        = st.emitter.listeners ++ [(event, Listener.chainRun st.chains.length)]
  ∧ ∀ v : Emitted α,
      EventEmitter.emit (BotImpl.on st event listener).1.emitter event v
        = Except.ok
            ((st.emitter.listeners.filter (fun p => p.1 == event)).map (fun p => (p.2, v))
              ++ [(Listener.chainRun st.chains.length, v)]) := by
  refine ⟨?_, rfl, rfl, ?_⟩
  · cases listener <;> simp [BotImpl.on, ProcessChain.pipe, Option.toList]
  · intro v
    unfold BotImpl.on EventEmitter.emit
    have hfil : (st.emitter.listeners ++ [(event, Listener.chainRun st.chains.length)]).filter
        (fun p => p.1 == event)
        = st.emitter.listeners.filter (fun p => p.1 == event)
          ++ [(event, Listener.chainRun st.chains.length)] := by
      rw [List.filter_append]
      simp
    have hbe := isEmpty_append_singleton
      (st.emitter.listeners.filter (fun p => p.1 == event))
      (event, Listener.chainRun st.chains.length)
    simp [hfil, hbe]

/-- Claim C6: for a reported version with at least a major and a minor
component, construction logs exactly one warning precisely when the
reported version differs from the declared `2.6.0` at major.minor
granularity and nothing otherwise, and the facade is produced either way;
when the `getAbout` query fails outright, the failure is caught and
logged, and the facade is still produced — the check never throws. -/
theorem constructor_version_check_advisory {α : Type} (reported err : String)
    (h : 2 ≤ (splitDots reported).length) :
    ((constructBotImpl defaultVersion (Except.ok reported) : ConstructOutcome α).logs
        = if majorMinorDiffers defaultVersion reported
          then [mismatchWarning defaultVersion reported] else [])
  ∧ (constructBotImpl defaultVersion (Except.ok reported) : ConstructOutcome α).facade
        = mkBotImpl defaultVersion
  ∧ (constructBotImpl defaultVersion (Except.error err) : ConstructOutcome α).logs
        = [LogEntry.logError ("[ERROR] mirai-api-http version check failed: " ++ err)]
  ∧ (constructBotImpl defaultVersion (Except.error err) : ConstructOutcome α).facade
        = mkBotImpl defaultVersion := by
  refine ⟨?_, rfl, rfl, rfl⟩
  obtain ⟨r0, r1, rest, hsp⟩ : ∃ r0 r1 rest, splitDots reported = r0 :: r1 :: rest := by
    cases hls : splitDots reported with
    | nil => rw [hls] at h; simp at h
    | cons a tl =>
      cases htl : tl with
      | nil => rw [hls, htl] at h; simp at h
      | cons b t => exact ⟨a, b, t, rfl⟩
  have hd : splitDots defaultVersion = ["2", "6", "0"] := rfl
  by_cases h0 : r0 = "2"
  · by_cases h1 : r1 = "6"
    · simp [constructBotImpl, versionCheckLogs, majorMinorDiffers, hsp, hd, h0, h1,
        List.take, List.enum, List.enumFrom]
    · simp [constructBotImpl, versionCheckLogs, majorMinorDiffers, hsp, hd, h0, h1,
        List.take, List.enum, List.enumFrom]
  · simp [constructBotImpl, versionCheckLogs, majorMinorDiffers, hsp, hd, h0,
      List.take, List.enum, List.enumFrom]

/-- Witness for claim C6: the reachable adapter reports `2.7.0`, which
differs from the declared `2.6.0` in the minor component, so construction
logs the single advisory warning; a failing check logs the failure; the
facade is produced in both runs. -/
theorem constructor_version_check_advisory_witness :
    ((constructBotImpl defaultVersion (Except.ok ("2.7.0")) : ConstructOutcome Nat).logs
        = if majorMinorDiffers defaultVersion ("2.7.0")
          then [mismatchWarning defaultVersion ("2.7.0")] else [])
  ∧ (constructBotImpl defaultVersion (Except.ok ("2.7.0")) : ConstructOutcome Nat).facade
        = mkBotImpl defaultVersion
  ∧ (constructBotImpl defaultVersion (Except.error ("connect ECONNREFUSED")) : ConstructOutcome Nat).logs
        = [LogEntry.logError ("[ERROR] mirai-api-http version check failed: "
            ++ "connect ECONNREFUSED")]
  ∧ (constructBotImpl defaultVersion (Except.error ("connect ECONNREFUSED")) : ConstructOutcome Nat).facade
        = mkBotImpl defaultVersion :=
  constructor_version_check_advisory ("2.7.0") ("connect ECONNREFUSED") (by decide)

/-- Claim C8: one chain occurrence executes exactly a prefix of the
registered stages in registration order: the trace never exceeds the stage
list, stage 0 receives the event, stage k+1 receives exactly the value
stage k passed on through its `next` result, and the trace is a proper
prefix only when the last executed stage signalled termination — so no
stage is reordered or skipped except past an explicit terminal signal. -/
theorem chain_run_sequential {T : Type} (ss : List (Stage T)) (t : T) :
    (runTrace ss t).length ≤ ss.length
  ∧ (ss ≠ [] → (runTrace ss t).get? 0 = some t)
  ∧ (∀ k, k + 1 < (runTrace ss t).length →
      ∃ v w s, (runTrace ss t).get? k = some v
        ∧ (runTrace ss t).get? (k + 1) = some w
        ∧ ss.get? k = some s ∧ s v = StageResult.next w)
  ∧ ((runTrace ss t).length < ss.length →
      ∃ v s, (runTrace ss t).getLast? = some v
        ∧ ss.get? ((runTrace ss t).length - 1) = some s
        ∧ s v = StageResult.terminate) := by
  induction ss generalizing t with
  | nil =>
    refine ⟨by simp [runTrace], by simp, ?_, ?_⟩
    · intro k hk
      simp [runTrace] at hk
    · intro hlt
      simp [runTrace] at hlt
  | cons s rest ih =>
    cases hst : s t with
    | next t2 =>
      obtain ⟨ih1, ih2, ih3, ih4⟩ := ih t2
      have hrt : runTrace (s :: rest) t = t :: runTrace rest t2 := by
        simp [runTrace, hst]
      refine ⟨?_, ?_, ?_, ?_⟩
      · rw [hrt]
        simp only [List.length_cons]
        exact Nat.add_le_add_right ih1 1
      · intro hne
        rw [hrt]
        rfl
      · intro k hk
        rw [hrt] at hk ⊢
        cases k with
        | zero =>
          have hne : runTrace rest t2 ≠ [] := by
            intro hnil
            rw [hnil] at hk
            simp at hk
          have hrestne : rest ≠ [] := by
            intro hr
            rw [hr] at hne
            exact hne rfl
          have h0 := ih2 hrestne
          exact ⟨t, t2, s, rfl, h0, rfl, hst⟩
        | succ j =>
          have hj : j + 1 < (runTrace rest t2).length := by
            simp only [List.length_cons] at hk
            omega
          obtain ⟨v, w, s2, hv, hw, hs2, hsv⟩ := ih3 j hj
          exact ⟨v, w, s2, hv, hw, hs2, hsv⟩
      · intro hlt
        rw [hrt] at hlt ⊢
        have hlt2 : (runTrace rest t2).length < rest.length := by
          simp only [List.length_cons] at hlt
          omega
        obtain ⟨v, s2, hlast, hget, hterm⟩ := ih4 hlt2
        cases htr : runTrace rest t2 with
        | nil =>
          rw [htr] at hlt2
          simp at hlt2
          rcases List.exists_cons_of_ne_nil (List.length_pos.mp hlt2) with ⟨a, l, hr⟩
          rw [hr] at htr
          simp [runTrace] at htr
        | cons a l =>
          rw [htr] at hlast hget
          refine ⟨v, s2, ?_, ?_, hterm⟩
          · rw [List.getLast?_cons_cons]
            exact hlast
          · simpa using hget
    | terminate =>
      have hrt : runTrace (s :: rest) t = [t] := by
        simp [runTrace, hst]
      refine ⟨?_, ?_, ?_, ?_⟩
      · rw [hrt]
        simp
      · intro hne
        rw [hrt]
        rfl
      · intro k hk
        rw [hrt] at hk
        simp at hk
      · intro hlt
        rw [hrt]
        exact ⟨t, s, rfl, rfl, hst⟩

/-- A concrete four-stage chain over naturals whose third stage signals
termination, used by the witness for claim C8. -/
def demoStages : List (Stage Nat) :=
  [fun n => StageResult.next (n + 1),
   fun n => StageResult.next (n * 2),
   fun _ => StageResult.terminate,
   fun n => StageResult.next n]

/-- Witness for claim C8: on the demo chain run from 3 (trace 3, 4, 8),
stage 1 receives exactly stage 0's output. -/
theorem chain_run_sequential_witness :
    ∃ v w s, (runTrace demoStages 3).get? 0 = some v
      ∧ (runTrace demoStages 3).get? 1 = some w
      ∧ demoStages.get? 0 = some s ∧ s v = StageResult.next w :=
  (chain_run_sequential demoStages 3).2.2.1 0 (by decide)
